import Mathlib

/-!
Shallow embedding of `src/app/src/main.rs` (an ESP32 firmware bootstrap:
wifi bring-up, then a single-route HTTP server, then an idle loop),
together with a model of its external `wifi` crate collaborator, which is
described by the specification but whose source is not part of this
repository.
-/

namespace Esp32Http

/-- Wifi operating mode (spec §3 `BringUpConfig.mode`). -/
inductive WifiMode
  | station
  | accessPoint
deriving DecidableEq, Repr

/-- Bring-up error taxonomy (spec §7). -/
inductive BringUpError
  | configInvalid
  | associationTimeout
  | addressAcquisitionTimeout
  | hardwareFault
deriving DecidableEq, Repr

/-- Terminal success state of bring-up (spec §3 `BringUpResult`):
station mode carries the acquired address, access-point mode is `hosting`. -/
inductive Ready
  | stationReady (address : String)
  | hosting
deriving DecidableEq, Repr

/-- Bring-up configuration (spec §3 `BringUpConfig`). -/
structure BringUpConfig where
  ssid : String
  passphrase : String
  mode : WifiMode
deriving DecidableEq, Repr

/-- Hardware actions the bring-up controller may attempt on the radio
interface, recorded so that claims about "no start attempted" are statable. -/
inductive HwAction
  | applyConfig
  | start
  | associate
  | acquireAddress
deriving DecidableEq, Repr

/-- Oracle resolving the outcomes of the blocking hardware phases of
bring-up (start, association, address acquisition) and the leased address. -/
structure HwOracle where
  startOk : Bool
  associateOk : Bool
  acquireOk : Bool
  leasedAddress : String

/-- Modelled from the spec: minimum passphrase length required by the
underlying security protocol for a secured access point (spec §3 invariant,
§7 `ConfigInvalid`); the concrete bound is a policy detail of the missing
`wifi` crate. -/
def minPassphraseLen : Nat := 8

/-- Modelled from the spec: the §3 configuration invariants checked before
touching hardware. Station mode requires a non-empty ssid; a secured access
point requires a passphrase of at least `minPassphraseLen`. -/
def configValid (c : BringUpConfig) : Bool :=
  match c.mode with
  | WifiMode.station => c.ssid ≠ ""
  | WifiMode.accessPoint => c.passphrase = "" || minPassphraseLen ≤ c.passphrase.length

/-- Modelled from the spec: the `wifi` crate's bring-up operation (spec
§4.1), whose source is not part of this repository. Returns the outcome
together with the list of hardware actions attempted, in order. Invalid
configurations fail immediately with `ConfigInvalid` and an empty action
list; station mode then applies config, starts, associates and acquires an
address, failing with the corresponding timeout/fault error; access-point
mode is ready as soon as the interface has started. -/
def bring_up (c : BringUpConfig) (hw : HwOracle) :
    Except BringUpError Ready × List HwAction :=
  if configValid c then
    match c.mode with
    | WifiMode.station =>
        if hw.startOk then
          if hw.associateOk then
            if hw.acquireOk then
              (Except.ok (Ready.stationReady hw.leasedAddress),
               [HwAction.applyConfig, HwAction.start, HwAction.associate,
                HwAction.acquireAddress])
            else
              (Except.error BringUpError.addressAcquisitionTimeout,
               [HwAction.applyConfig, HwAction.start, HwAction.associate,
                HwAction.acquireAddress])
          else
            (Except.error BringUpError.associationTimeout,
             [HwAction.applyConfig, HwAction.start, HwAction.associate])
        else
          (Except.error BringUpError.hardwareFault,
           [HwAction.applyConfig, HwAction.start])
    | WifiMode.accessPoint =>
        if hw.startOk then
          (Except.ok Ready.hosting, [HwAction.applyConfig, HwAction.start])
        else
          (Except.error BringUpError.hardwareFault,
           [HwAction.applyConfig, HwAction.start])
  else
    (Except.error BringUpError.configInvalid, [])

/-- Modelled from the spec: the `wifi(ssid, psk, modem, sysloop, ap)` entry
point called by `main` (the `wifi` crate is not in this repository's
sources); the boolean `ap` flag selects access-point versus station mode
(spec §6 configuration input). -/
def wifi (ssid psk : String) (ap : Bool) (hw : HwOracle) :
    Except BringUpError Ready × List HwAction :=
  bring_up ⟨ssid, psk, if ap then WifiMode.accessPoint else WifiMode.station⟩ hw

/-- The `Config` struct of `main.rs` (`toml_cfg::toml_config`), with fields
`wifi_ssid`, `wifi_psk`, `wifi_ap`. -/
structure Config where
  wifi_ssid : String
  wifi_psk : String
  wifi_ap : Bool
deriving DecidableEq, Repr

/-- The compile-time defaults of the `Config` struct as written in its
`#[default(...)]` attributes in `main.rs`. -/
def configDefault : Config := ⟨"", "", false⟩

/-- The auto-generated `CONFIG` constant: `toml_cfg` uses a `cfg.toml`
override when one is provided at build time and the attribute defaults
otherwise; the override is modelled as an optional value. -/
def CONFIG (override : Option Config) : Config :=
  override.getD configDefault

/-- HTTP methods (only `Get` is used by `main.rs`). -/
inductive Method
  | get
  | post
deriving DecidableEq, Repr

/-- An incoming HTTP request, abstracted to the parts visible to the
handler's routing (uri and method) plus an opaque payload. -/
structure Request where
  uri : String
  method : Method
  payload : String
deriving DecidableEq, Repr

/-- An HTTP response as produced by the handler: status code, content type
header and accumulated body. -/
structure Response where
  status : Nat
  contentType : String
  body : String
deriving DecidableEq, Repr

/-- Errors a route handler can surface through its own error result
(the `?` operators inside the closure in `main.rs`). -/
inductive HandlerError
  | responseInitFailure
  | responseWriteFailure
deriving DecidableEq, Repr

/-- Oracle for the fallible connection operations the handler performs:
creating the OK response and writing the body. -/
structure ConnOracle where
  intoOkResponseFails : Bool
  writeFails : Bool
deriving DecidableEq, Repr

/-- The `templated` function of `main.rs`: a `format!` with one placeholder
whose raw-string literal wraps the content in a fixed HTML document. -/
def templated (content : String) : String :=
  "\n<!DOCTYPE html>\n<html>\n    <head>\n        <meta charset=\"utf-8\">\n        <title>esp-rs web server</title>\n    </head>\n    <body>\n        "
    ++ content ++
  "\n    </body>\n</html>\n"

/-- The part of the `format!` literal in `templated` before the `{}`
placeholder. -/
def htmlBefore : String :=
  "\n<!DOCTYPE html>\n<html>\n    <head>\n        <meta charset=\"utf-8\">\n        <title>esp-rs web server</title>\n    </head>\n    <body>\n        "

/-- The part of the `format!` literal in `templated` after the `{}`
placeholder. -/
def htmlAfter : String := "\n    </body>\n</html>\n"

/-- The `index_html` function of `main.rs`. -/
def index_html : String := templated "✨ Quint was here!"

/-- Modelled from the spec: `request.into_ok_response()` is provided by the
external HTTP responder collaborator (spec §6): it creates a response with
status 200 and the responder's default content type `text/html`, or fails
through the handler's error channel. -/
def into_ok_response (conn : ConnOracle) : Except HandlerError Response :=
  if conn.intoOkResponseFails then Except.error HandlerError.responseInitFailure
  else Except.ok ⟨200, "text/html", ""⟩

/-- The route handler closure registered by `main.rs` for GET `/`:
create the OK response, then write `index_html` into it; each fallible step
is propagated with `?` into the handler's own error result. -/
def fnHandler (request : Request) (conn : ConnOracle) :
    Except HandlerError Response :=
  match into_ok_response conn with
  | Except.error e => Except.error e
  | Except.ok response =>
      let data := index_html
      if conn.writeFails then Except.error HandlerError.responseWriteFailure
      else Except.ok ⟨response.status, response.contentType, response.body ++ data⟩

/-- Process-level state visible to the HTTP collaborator layer: whether the
process is still alive and whether the network interface is up. -/
structure ProcState where
  alive : Bool
  interfaceUp : Bool
deriving DecidableEq, Repr

/-- Modelled from the spec: the responder's dispatch of one request (spec
§7 `ResponseWriteFailure`): the handler's outcome is surfaced on the
responder's own error channel and never alters process or interface state. -/
def dispatch (proc : ProcState) (request : Request) (conn : ConnOracle) :
    ProcState × Except HandlerError Response :=
  (proc, fnHandler request conn)

/-- Observable events of one execution of `main`. -/
inductive Event
  | wifiAttempted
  | wifiReady
  | wifiFailed (e : BringUpError)
  | serverCreated
  | routeRegistered (path : String) (m : Method)
  | requestHandled
deriving DecidableEq, Repr

/-- Control-flow phases of `main`: boot (before the `wifi` call), the
straight-line points after each fallible step, the idle loop, and process
exit with a status code. -/
inductive Phase
  | boot
  | wifiDone
  | serverUp
  | routeUp
  | idle
  | exited (code : Nat)
deriving DecidableEq, Repr

/-- Environment resolving every fallible or external step of one execution
of `main`: the optional `cfg.toml` override, the hardware oracle consumed by
the `wifi` call, whether `EspHttpServer::new` and `fn_handler` registration
succeed, and at which idle-loop ticks a client request arrives. -/
structure MainEnv where
  configOverride : Option Config
  hw : HwOracle
  serverNewOk : Bool
  registerOk : Bool
  requestArrives : Nat → Bool

/-- The configuration value `main` reads (`let app_config = CONFIG`). -/
def appConfig (env : MainEnv) : Config := CONFIG env.configOverride

/-- The `wifi(...)` call exactly as `main` makes it, with the fields of
`app_config` in the source's argument order. -/
def wifiCall (env : MainEnv) : Except BringUpError Ready × List HwAction :=
  wifi (appConfig env).wifi_ssid (appConfig env).wifi_psk
    (appConfig env).wifi_ap env.hw

/-- One small step of `main` at tick `t`: from `boot` the `wifi(...)` call
either fails (propagated by `?`, the process exits non-zero) or succeeds;
then `EspHttpServer::new`, then `fn_handler("/", Method::Get, ...)`, then
the `println!` and the `loop { sleep(...) }`, in which a request may be
handled at any tick. Each step returns the next phase and the events it
emits. -/
def mainStep (env : MainEnv) (t : Nat) : Phase → Phase × List Event
  | Phase.boot =>
      match (wifiCall env).1 with
      | Except.error e =>
          (Phase.exited 1, [Event.wifiAttempted, Event.wifiFailed e])
      | Except.ok _ =>
          (Phase.wifiDone, [Event.wifiAttempted, Event.wifiReady])
  | Phase.wifiDone =>
      if env.serverNewOk then (Phase.serverUp, [Event.serverCreated])
      else (Phase.exited 1, [])
  | Phase.serverUp =>
      if env.registerOk then
        (Phase.routeUp, [Event.routeRegistered "/" Method.get])
      else (Phase.exited 1, [])
  | Phase.routeUp => (Phase.idle, [])
  | Phase.idle =>
      if env.requestArrives t then (Phase.idle, [Event.requestHandled])
      else (Phase.idle, [])
  | Phase.exited c => (Phase.exited c, [])

/-- Execution of `main` for `n` steps from `boot`: current phase and the
trace of events emitted so far. -/
def mainRun (env : MainEnv) : Nat → Phase × List Event
  | 0 => (Phase.boot, [])
  | n + 1 =>
      ((mainStep env n (mainRun env n).1).1,
       (mainRun env n).2 ++ (mainStep env n (mainRun env n).1).2)

/-- Errors `main` can return (its `anyhow::Result` on the failure paths). -/
inductive AppError
  | wifiErr (e : BringUpError)
  | serverCreationFailed
  | routeRegistrationFailed
deriving DecidableEq, Repr

/-- Final outcome of `main`: it either returns an error through `?`, or it
reaches `loop { sleep(...) }` and runs forever. -/
inductive MainOutcome
  | fail (e : AppError)
  | runForever
deriving DecidableEq, Repr

/-- The return value of `main` as a function of its environment, mirroring
the `?`-propagation structure of the source: `wifi(...)?`, then
`EspHttpServer::new(...)?`, then `server.fn_handler(...)?`, then the
unbounded loop. -/
def mainOutcome (env : MainEnv) : MainOutcome :=
  match (wifiCall env).1 with
  | Except.error e => MainOutcome.fail (AppError.wifiErr e)
  | Except.ok _ =>
      if env.serverNewOk then
        if env.registerOk then MainOutcome.runForever
        else MainOutcome.fail AppError.routeRegistrationFailed
      else MainOutcome.fail AppError.serverCreationFailed

/-- Process exit status: a `main` returning `Err` exits with status 1;
an execution that runs forever has no exit status. -/
def exitCode : MainOutcome → Option Nat
  | MainOutcome.fail _ => some 1
  | MainOutcome.runForever => none

/-- The route registration event of `main.rs`: method GET, path `/`. -/
def routeEvt : Event := Event.routeRegistered "/" Method.get

end Esp32Http

namespace Esp32Http

/-- Execution invariant of `main`, proved by induction over `mainRun`:
the registration count is pinned down by the phase, every phase past the
`wifi` call has observed `wifiReady`, requests are handled only in the idle
loop, the only registered route is GET `/`, server creation and readiness
events imply the `wifi` call succeeded, every exit status is 1, and a
registration is always preceded (in the same trace) by `wifiReady`. -/
def Inv (env : MainEnv) (n : Nat) : Prop :=
  (List.count routeEvt (mainRun env n).2 =
    if (mainRun env n).1 = Phase.routeUp ∨ (mainRun env n).1 = Phase.idle
    then 1 else 0) ∧
  (((mainRun env n).1 = Phase.wifiDone ∨ (mainRun env n).1 = Phase.serverUp ∨
      (mainRun env n).1 = Phase.routeUp ∨ (mainRun env n).1 = Phase.idle) →
    Event.wifiReady ∈ (mainRun env n).2) ∧
  (Event.requestHandled ∈ (mainRun env n).2 → (mainRun env n).1 = Phase.idle) ∧
  (∀ q m, Event.routeRegistered q m ∈ (mainRun env n).2 →
    q = "/" ∧ m = Method.get) ∧
  (Event.serverCreated ∈ (mainRun env n).2 →
    ∃ r, (wifiCall env).1 = Except.ok r) ∧
  (Event.wifiReady ∈ (mainRun env n).2 →
    ∃ r, (wifiCall env).1 = Except.ok r) ∧
  (∀ c, (mainRun env n).1 = Phase.exited c → c = 1) ∧
  (∀ q m, Event.routeRegistered q m ∈ (mainRun env n).2 →
    Event.wifiReady ∈ (mainRun env n).2)

theorem inv_holds (env : MainEnv) : ∀ n, Inv env n := by
  intro n
  induction n with
  | zero => simp [Inv, mainRun]
  | succ n ih =>
      unfold Inv at ih ⊢
      rw [mainRun]
      cases hp : (mainRun env n).1 with
      | boot =>
          rw [hp] at ih
          cases hw : (wifiCall env).1 with
          | error e =>
              simp_all [mainStep, hw, List.count_append]
              obtain ⟨j1, j2, j3, j4, j5, j6⟩ := ih
              refine ⟨?_, j3, fun q m h => absurd (j6 q m h) j5⟩
              simp [routeEvt, List.count_cons, List.count_nil]
          | ok r =>
              simp_all [mainStep, hw, List.count_append]
              exact ⟨by decide, ih.2.2.1⟩
      | wifiDone =>
          rw [hp] at ih
          cases hs : env.serverNewOk with
          | false =>
              simp_all [mainStep, List.count_append]
              exact ih.2.2.2.1
          | true =>
              simp_all [mainStep, List.count_append]
              exact ⟨by decide, ih.2.2.2.1⟩
      | serverUp =>
          rw [hp] at ih
          cases hr : env.registerOk with
          | false =>
              simp_all [mainStep, List.count_append]
              exact ih.2.2.2.1
          | true =>
              simp_all [mainStep, List.count_append, routeEvt]
              exact fun q m h => h.elim (fun h2 => ih.2.2.2.1 q m h2) id
      | routeUp =>
          rw [hp] at ih
          simp_all [mainStep, List.count_append]
          exact ih.2.2.2.1
      | idle =>
          rw [hp] at ih
          cases hq : env.requestArrives n with
          | false =>
              simp_all [mainStep, List.count_append]
              exact ih.2.2.1
          | true =>
              simp_all [mainStep, List.count_append]
              exact ⟨by decide, ih.2.2.1⟩
      | exited c =>
          rw [hp] at ih
          simp_all [mainStep, List.count_append]
          exact ⟨ih.2.2.1, ih.2.2.2.2.2.2⟩

end Esp32Http

namespace Esp32Http

theorem idle_absorb (env : MainEnv) (n : Nat)
    (h : (mainRun env n).1 = Phase.idle) :
    ∀ m, (mainRun env (n + m)).1 = Phase.idle := by
  intro m
  induction m with
  | zero => exact h
  | succ m ih =>
      show (mainRun env (n + m + 1)).1 = Phase.idle
      rw [mainRun]
      rw [ih]
      cases hq : env.requestArrives (n + m) <;> simp [mainStep, hq]

theorem run_phases_success (env : MainEnv) (r : Ready)
    (hw : (wifiCall env).1 = Except.ok r) (hs : env.serverNewOk = true)
    (hr : env.registerOk = true) :
    (mainRun env 3).1 = Phase.routeUp ∧ (mainRun env 4).1 = Phase.idle := by
  have e1 : (mainRun env 1).1 = Phase.wifiDone := by
    show (mainRun env (0 + 1)).1 = _
    rw [mainRun, mainRun]
    simp [mainStep, hw]
  have e2 : (mainRun env 2).1 = Phase.serverUp := by
    show (mainRun env (1 + 1)).1 = _
    rw [mainRun]
    simp only []
    rw [e1]
    simp [mainStep, hs]
  have e3 : (mainRun env 3).1 = Phase.routeUp := by
    show (mainRun env (2 + 1)).1 = _
    rw [mainRun]
    simp only []
    rw [e2]
    simp [mainStep, hr]
  have e4 : (mainRun env 4).1 = Phase.idle := by
    show (mainRun env (3 + 1)).1 = _
    rw [mainRun]
    simp only []
    rw [e3]
    simp [mainStep]
  exact ⟨e3, e4⟩

theorem count_routeEvt_success (env : MainEnv) (r : Ready)
    (hw : (wifiCall env).1 = Except.ok r) (hs : env.serverNewOk = true)
    (hr : env.registerOk = true) :
    ∀ n, 3 ≤ n → List.count routeEvt (mainRun env n).2 = 1 := by
  obtain ⟨h3, h4⟩ := run_phases_success env r hw hs hr
  intro n hn
  obtain ⟨m, rfl⟩ : ∃ m, n = 3 + m := ⟨n - 3, by omega⟩
  cases m with
  | zero =>
      obtain ⟨i1, -⟩ := inv_holds env 3
      rw [show 3 + 0 = 3 by rfl, i1, h3]
      simp
  | succ m =>
      have hidle : (mainRun env (4 + m)).1 = Phase.idle := idle_absorb env 4 h4 m
      obtain ⟨i1, -⟩ := inv_holds env (4 + m)
      rw [show 3 + (m + 1) = 4 + m by omega, i1, hidle]
      simp

theorem handler_ok_shape (req : Request) (conn : ConnOracle) (r : Response)
    (h : fnHandler req conn = Except.ok r) :
    r = ⟨200, "text/html", index_html⟩ := by
  cases hA : conn.intoOkResponseFails <;> cases hB : conn.writeFails <;>
    simp [fnHandler, into_ok_response, hA, hB] at h
  exact h.symm

end Esp32Http

namespace Esp32Http

/-- C1: in every execution of the bootstrap, observing a route registration
or a handled request in the trace implies the `wifi(...)` bring-up call has
already returned `Ready`: the `wifiReady` event is in the same trace and the
call's result is `ok`. Traces grow monotonically with the step count, so no
route is registered and no request is handled before bring-up succeeds. -/
theorem claim1_route_and_requests_only_after_ready (env : MainEnv) (n : Nat)
    (p : String) (m : Method)
    (h : Event.routeRegistered p m ∈ (mainRun env n).2 ∨
      Event.requestHandled ∈ (mainRun env n).2) :
    Event.wifiReady ∈ (mainRun env n).2 ∧
      ∃ r, (wifiCall env).1 = Except.ok r := by
  obtain ⟨i1, i2, i3, i4, i5, i6, i7, i8⟩ := inv_holds env n
  have hready : Event.wifiReady ∈ (mainRun env n).2 := by
    rcases h with h | h
    · exact i8 p m h
    · exact i2 (Or.inr (Or.inr (Or.inr (i3 h))))
  exact ⟨hready, i6 hready⟩

/-- Witness for C1: a concrete successful environment at step 5, where the
route is registered and readiness has indeed been observed. -/
theorem claim1_route_and_requests_only_after_ready_witness :
    (Event.routeRegistered "/" Method.get ∈
        (mainRun ⟨some ⟨"HomeNet", "secret123", false⟩,
          ⟨true, true, true, "10.0.0.7"⟩, true, true, fun _ => true⟩ 5).2 ∨
      Event.requestHandled ∈
        (mainRun ⟨some ⟨"HomeNet", "secret123", false⟩,
          ⟨true, true, true, "10.0.0.7"⟩, true, true, fun _ => true⟩ 5).2) ∧
    Event.wifiReady ∈
      (mainRun ⟨some ⟨"HomeNet", "secret123", false⟩,
        ⟨true, true, true, "10.0.0.7"⟩, true, true, fun _ => true⟩ 5).2 :=
  ⟨Or.inl (by decide),
   (claim1_route_and_requests_only_after_ready _ 5 "/" Method.get
     (Or.inl (by decide))).1⟩

/-- C2: when the `wifi(...)` call fails, `main` propagates exactly that error
(`fail (wifiErr e)`), the process exit status is the non-zero 1, and at no
step of the execution is the HTTP server created or any route registered. -/
theorem claim2_wifi_error_propagated (env : MainEnv) (e : BringUpError)
    (h : (wifiCall env).1 = Except.error e) :
    mainOutcome env = MainOutcome.fail (AppError.wifiErr e) ∧
    exitCode (mainOutcome env) = some 1 ∧
    ∀ n, Event.serverCreated ∉ (mainRun env n).2 ∧
      ∀ p m, Event.routeRegistered p m ∉ (mainRun env n).2 := by
  refine ⟨by simp [mainOutcome, h], by simp [mainOutcome, exitCode, h], ?_⟩
  intro n
  obtain ⟨i1, i2, i3, i4, i5, i6, i7, i8⟩ := inv_holds env n
  constructor
  · intro hc
    rcases i5 hc with ⟨r, hr⟩
    rw [h] at hr
    cases hr
  · intro p m hm
    rcases i6 (i8 p m hm) with ⟨r, hr⟩
    rw [h] at hr
    cases hr

/-- Witness for C2: with the default (empty-ssid station) configuration the
`wifi` call fails with `ConfigInvalid` and `main` returns exactly that. -/
theorem claim2_wifi_error_propagated_witness :
    (wifiCall ⟨none, ⟨true, true, true, "10.0.0.7"⟩, true, true,
        fun _ => true⟩).1 = Except.error BringUpError.configInvalid ∧
    mainOutcome ⟨none, ⟨true, true, true, "10.0.0.7"⟩, true, true,
        fun _ => true⟩ =
      MainOutcome.fail (AppError.wifiErr BringUpError.configInvalid) :=
  ⟨rfl,
   (claim2_wifi_error_propagated
     ⟨none, ⟨true, true, true, "10.0.0.7"⟩, true, true, fun _ => true⟩
     BringUpError.configInvalid rfl).1⟩

/-- C3: after successful bring-up (and successful server construction and
registration), the trace contains at most one route registration at every
step and exactly one from step 3 on; every registered route is GET `/`; and
the registered handler, when its connection operations succeed, returns
status 200 with content type `text/html` and the fixed `index_html` body. -/
theorem claim3_exactly_one_get_root_route (env : MainEnv) (r : Ready)
    (hw : (wifiCall env).1 = Except.ok r) (hs : env.serverNewOk = true)
    (hr : env.registerOk = true) :
    (∀ n, List.count routeEvt (mainRun env n).2 ≤ 1) ∧
    (∀ n, 3 ≤ n → List.count routeEvt (mainRun env n).2 = 1) ∧
    (∀ n p m, Event.routeRegistered p m ∈ (mainRun env n).2 →
      p = "/" ∧ m = Method.get) ∧
    (∀ req conn, conn.intoOkResponseFails = false → conn.writeFails = false →
      fnHandler req conn = Except.ok ⟨200, "text/html", index_html⟩) := by
  refine ⟨?_, count_routeEvt_success env r hw hs hr, ?_, ?_⟩
  · intro n
    obtain ⟨i1, -⟩ := inv_holds env n
    rw [i1]
    split <;> simp
  · intro n p m hm
    exact (inv_holds env n).2.2.2.1 p m hm
  · intro req conn hA hB
    simp [fnHandler, into_ok_response, hA, hB]

/-- Witness for C3: a concrete successful environment; at step 5 the count of
registrations of GET `/` is exactly one. -/
theorem claim3_exactly_one_get_root_route_witness :
    (wifiCall ⟨some ⟨"HomeNet", "secret123", false⟩,
        ⟨true, true, true, "10.0.0.7"⟩, true, true, fun _ => true⟩).1 =
      Except.ok (Ready.stationReady "10.0.0.7") ∧
    List.count routeEvt
      (mainRun ⟨some ⟨"HomeNet", "secret123", false⟩,
        ⟨true, true, true, "10.0.0.7"⟩, true, true, fun _ => true⟩ 5).2 = 1 :=
  ⟨rfl,
   (claim3_exactly_one_get_root_route
     ⟨some ⟨"HomeNet", "secret123", false⟩, ⟨true, true, true, "10.0.0.7"⟩,
       true, true, fun _ => true⟩
     (Ready.stationReady "10.0.0.7") rfl rfl rfl).2.1 5 (by omega)⟩

set_option maxRecDepth 10000 in
/-- Helper fact evaluated once: the fixed page contains the marker text. -/
theorem quint_marker_infix : "Quint was here".data <:+: index_html.data := by
  decide

/-- C4: every request the handler answers successfully gets status 200 and a
body containing the substring "Quint was here". -/
theorem claim4_response_contains_quint (req : Request) (conn : ConnOracle)
    (resp : Response) (h : fnHandler req conn = Except.ok resp) :
    resp.status = 200 ∧ "Quint was here".data <:+: resp.body.data := by
  have hr := handler_ok_shape req conn resp h
  rw [hr]
  exact ⟨rfl, quint_marker_infix⟩

/-- Witness for C4: a concrete request through a fault-free connection. -/
theorem claim4_response_contains_quint_witness :
    fnHandler ⟨"/", Method.get, ""⟩ ⟨false, false⟩ =
      Except.ok ⟨200, "text/html", index_html⟩ ∧
    (200 : Nat) = 200 ∧
    "Quint was here".data <:+:
      (Response.mk 200 "text/html" index_html).body.data :=
  ⟨rfl, rfl,
   (claim4_response_contains_quint ⟨"/", Method.get, ""⟩ ⟨false, false⟩
     ⟨200, "text/html", index_html⟩ rfl).2⟩

/-- C5: once an execution reaches the idle loop it stays in it forever (the
process never returns normally), every exit status ever reached is non-zero,
and an execution whose outcome is `runForever` has no exit status at all. -/
theorem claim5_idle_loop_never_exits_zero (env : MainEnv) (n : Nat) :
    ((mainRun env n).1 = Phase.idle →
      ∀ m, (mainRun env (n + m)).1 = Phase.idle) ∧
    (∀ c, (mainRun env n).1 = Phase.exited c → c ≠ 0) ∧
    (mainOutcome env = MainOutcome.runForever →
      exitCode (mainOutcome env) ≠ some 0) := by
  refine ⟨idle_absorb env n, ?_, ?_⟩
  · intro c hc
    have h1 : c = 1 := (inv_holds env n).2.2.2.2.2.2.1 c hc
    omega
  · intro h
    rw [h]
    simp [exitCode]

/-- Witness for C5: the concrete successful environment reaches the idle loop
at step 4 and is still in it at step 6. -/
theorem claim5_idle_loop_never_exits_zero_witness :
    (mainRun ⟨some ⟨"HomeNet", "secret123", false⟩,
        ⟨true, true, true, "10.0.0.7"⟩, true, true, fun _ => true⟩ 4).1 =
      Phase.idle ∧
    (mainRun ⟨some ⟨"HomeNet", "secret123", false⟩,
        ⟨true, true, true, "10.0.0.7"⟩, true, true, fun _ => true⟩ (4 + 2)).1 =
      Phase.idle :=
  ⟨by decide,
   (claim5_idle_loop_never_exits_zero _ 4).1 (by decide) 2⟩

/-- C6: a station-mode configuration with an empty ssid makes `bring_up`
return `ConfigInvalid` immediately, with an empty hardware-action list — in
particular no start of the interface is attempted. -/
theorem claim6_station_empty_ssid_config_invalid (cfg : BringUpConfig)
    (hw : HwOracle) (hm : cfg.mode = WifiMode.station) (hs : cfg.ssid = "") :
    bring_up cfg hw = (Except.error BringUpError.configInvalid, []) ∧
    HwAction.start ∉ (bring_up cfg hw).2 := by
  have hv : configValid cfg = false := by
    unfold configValid
    rw [hm, hs]
    simp
  constructor
  · simp [bring_up, hv]
  · simp [bring_up, hv]

/-- Witness for C6: the concrete empty-ssid station config from the spec's
end-to-end scenario 2. -/
theorem claim6_station_empty_ssid_config_invalid_witness :
    (BringUpConfig.mk "" "" WifiMode.station).mode = WifiMode.station ∧
    (BringUpConfig.mk "" "" WifiMode.station).ssid = "" ∧
    bring_up ⟨"", "", WifiMode.station⟩ ⟨true, true, true, "10.0.0.7"⟩ =
      (Except.error BringUpError.configInvalid, []) :=
  ⟨rfl, rfl,
   (claim6_station_empty_ssid_config_invalid ⟨"", "", WifiMode.station⟩
     ⟨true, true, true, "10.0.0.7"⟩ rfl rfl).1⟩

/-- C7: a failure while writing the response surfaces only through the
handler's own error result; dispatching such a request leaves the process
state (aliveness and interface) unchanged, and a later request is answered
exactly as it would have been without the earlier failure. -/
theorem claim7_write_failure_isolated (proc : ProcState) (req : Request)
    (conn : ConnOracle) (h1 : conn.writeFails = true)
    (h2 : conn.intoOkResponseFails = false) :
    fnHandler req conn = Except.error HandlerError.responseWriteFailure ∧
    (dispatch proc req conn).1 = proc ∧
    (dispatch proc req conn).1.alive = proc.alive ∧
    (dispatch proc req conn).1.interfaceUp = proc.interfaceUp ∧
    (∀ req2 conn2,
      dispatch ((dispatch proc req conn).1) req2 conn2 =
        dispatch proc req2 conn2) := by
  refine ⟨?_, rfl, rfl, rfl, fun req2 conn2 => rfl⟩
  simp [fnHandler, into_ok_response, h1, h2]

/-- Witness for C7: a concrete write failure on a live process. -/
theorem claim7_write_failure_isolated_witness :
    (ConnOracle.mk false true).writeFails = true ∧
    (ConnOracle.mk false true).intoOkResponseFails = false ∧
    fnHandler ⟨"/", Method.get, ""⟩ ⟨false, true⟩ =
      Except.error HandlerError.responseWriteFailure :=
  ⟨rfl, rfl,
   (claim7_write_failure_isolated ⟨true, true⟩ ⟨"/", Method.get, ""⟩
     ⟨false, true⟩ rfl rfl).1⟩

set_option maxRecDepth 10000 in
/-- C8: `templated s` is the fixed HTML wrapper with `s` inserted verbatim:
it equals the literal before the placeholder, then `s`, then the literal
after; it therefore contains `s` as a substring; the wrapper carries the
DOCTYPE, the utf-8 charset and the fixed title; and the insertion point lies
inside the `<body>` element. -/
theorem claim8_templated_wraps_content (s : String) :
    templated s = htmlBefore ++ s ++ htmlAfter ∧
    s.data <:+: (templated s).data ∧
    "<!DOCTYPE html>".data <:+: (templated s).data ∧
    "<meta charset=\"utf-8\">".data <:+: (templated s).data ∧
    "<title>esp-rs web server</title>".data <:+: (templated s).data ∧
    (∃ p q, templated s = p ++ s ++ q ∧
      "<body>".data <:+: p.data ∧ "</body>".data <:+: q.data) := by
  have h0 : templated s = htmlBefore ++ s ++ htmlAfter := rfl
  have hd : (templated s).data =
      htmlBefore.data ++ (s.data ++ htmlAfter.data) := by
    rw [h0]
    simp [String.data_append]
  have hpre : htmlBefore.data <+: (templated s).data :=
    ⟨s.data ++ htmlAfter.data, hd.symm⟩
  refine ⟨h0, ⟨htmlBefore.data, htmlAfter.data, ?_⟩, ?_, ?_, ?_,
    htmlBefore, htmlAfter, h0, by decide, by decide⟩
  · rw [hd, List.append_assoc]
  · exact List.IsInfix.trans (by decide) hpre.isInfix
  · exact List.IsInfix.trans (by decide) hpre.isInfix
  · exact List.IsInfix.trans (by decide) hpre.isInfix

/-- C9: the handler is deterministic and stateless: any two successful
invocations, for arbitrary requests and connection oracles, return the same
response, whose body is the fixed page. -/
theorem claim9_handler_deterministic (req1 req2 : Request)
    (conn1 conn2 : ConnOracle) (r1 r2 : Response)
    (h1 : fnHandler req1 conn1 = Except.ok r1)
    (h2 : fnHandler req2 conn2 = Except.ok r2) :
    r1 = r2 ∧ r1.body = r2.body ∧ r1.body = index_html := by
  have e1 := handler_ok_shape req1 conn1 r1 h1
  have e2 := handler_ok_shape req2 conn2 r2 h2
  subst e1
  subst e2
  exact ⟨rfl, rfl, rfl⟩

/-- Witness for C9: two different requests through different oracles give the
same body. -/
theorem claim9_handler_deterministic_witness :
    fnHandler ⟨"/", Method.get, "abc"⟩ ⟨false, false⟩ =
      Except.ok ⟨200, "text/html", index_html⟩ ∧
    fnHandler ⟨"/", Method.get, "xyz"⟩ ⟨false, false⟩ =
      Except.ok ⟨200, "text/html", index_html⟩ ∧
    (Response.mk 200 "text/html" index_html).body = index_html :=
  ⟨rfl, rfl,
   (claim9_handler_deterministic ⟨"/", Method.get, "abc"⟩
     ⟨"/", Method.get, "xyz"⟩ ⟨false, false⟩ ⟨false, false⟩
     ⟨200, "text/html", index_html⟩ ⟨200, "text/html", index_html⟩
     rfl rfl).2.2⟩

/-- C10: with no `cfg.toml` override the `CONFIG` constant is the attribute
defaults (empty ssid, empty psk, `wifi_ap = false`), i.e. station mode with
an empty ssid; this violates the station-mode invariant, so the `wifi` call
returns `ConfigInvalid` for every hardware oracle and `main` with the
default configuration always fails. -/
theorem claim10_default_config_cannot_succeed :
    CONFIG none = ⟨"", "", false⟩ ∧
    configValid ⟨(CONFIG none).wifi_ssid, (CONFIG none).wifi_psk,
      WifiMode.station⟩ = false ∧
    (∀ hw, (wifi (CONFIG none).wifi_ssid (CONFIG none).wifi_psk
      (CONFIG none).wifi_ap hw).1 = Except.error BringUpError.configInvalid) ∧
    (∀ hw snew reg sched,
      mainOutcome ⟨none, hw, snew, reg, sched⟩ =
        MainOutcome.fail (AppError.wifiErr BringUpError.configInvalid)) :=
  ⟨rfl, rfl, fun _ => rfl, fun _ _ _ _ => rfl⟩

end Esp32Http
